import Mathlib

/-!
Verification of the TuneTrack audio-cataloguing scripts
(`src/working/working.py`, `src/main3.py`, `src/main.py`).

The development shallowly embeds the pipeline:
* `calculate_percentage_match` — the similarity scorer (working.py lines 36-52);
* `extractFingerprint` — the pure core of `calculate_fingerprint`
  (working.py lines 22-34): scanning captured fpcalc stdout lines;
* `insert_song_data` / `insert_sample_data` / `insert_fingerprint_data` —
  the SQLite writes (working.py lines 113-214), over an explicit
  relational state `DB` plus a boolean oracle for environmental
  sqlite3 errors (I/O failure on connect/execute/commit);
* `process_audio_file` — the per-file orchestrator (working.py
  lines 217-312), parameterised by a `ToolEnv` describing the outcomes
  of the external ffmpeg/fpcalc invocations;
* `processFiles` — the batch loop of `main` (working.py lines 334-339).

Python floats are modelled by `ℚ` (all values reached by the claims —
0, 50, 100 — are exact in both); Python `str` by `String`, with the
string primitives the scripts use (`split`, `strip`, `lower`,
`endswith`, `os.path.basename`, `os.path.splitext`) re-implemented
structurally on `List Char` so that every definition evaluates by
kernel reduction.
-/

namespace TuneTrack

/-! ### Python string primitives -/

/-- Python `needle in hay` restricted to the head position:
`leadMatch needle hay` holds when `needle` is an initial segment of `hay`. -/
def leadMatch : List Char → List Char → Bool
  | [], _ => true
  | _ :: _, [] => false
  | c :: cs, d :: ds => c = d && leadMatch cs ds

/-- Python substring containment `needle in hay`. -/
def subMatch (needle : List Char) : List Char → Bool
  | [] => leadMatch needle []
  | d :: ds => leadMatch needle (d :: ds) || subMatch needle ds

/-- Python `line.split(sep)` for a one-character separator: splits into the
(possibly empty) segments between occurrences of `sep`.  Like Python,
`splitOnChar sep [] = [[]]`. -/
def splitOnChar (sep : Char) : List Char → List (List Char)
  | [] => [[]]
  | c :: rest =>
    let r := splitOnChar sep rest
    if c = sep then [] :: r
    else
      match r with
      | h :: t => (c :: h) :: t
      | [] => [[c]]

/-- The whitespace characters removed by Python `str.strip()`. -/
def pyIsSpace (c : Char) : Bool :=
  c = ' ' || c = '\t' || c = '\n' || c = '\r' || c = '\x0b' || c = '\x0c'

/-- Python `s.strip()`. -/
def pyStrip (cs : List Char) : List Char :=
  ((cs.dropWhile pyIsSpace).reverse.dropWhile pyIsSpace).reverse

/-- Python `s.lower()` (ASCII case folding, which is all the scripts need). -/
def lowerChars (cs : List Char) : List Char := cs.map Char.toLower

/-- Python `s.endswith(suff)`. -/
def endsWithChars (cs suff : List Char) : Bool :=
  leadMatch suff.reverse cs.reverse

/-- `os.path.basename`: the segment after the last `/`. -/
def afterLastSlash (cs : List Char) : List Char :=
  cs.foldl (fun acc c => if c = '/' then [] else acc ++ [c]) []

/-- The stem part of `os.path.splitext`: everything before the last dot, the
whole name when there is no dot.  (The stdlib's special-casing of names that
start with a dot is not modelled; no claim concerns hidden files.) -/
def stripExtChars (cs : List Char) : List Char :=
  if cs.contains '.' then ((cs.reverse.dropWhile (fun c => c ≠ '.')).drop 1).reverse
  else cs

/-- `os.path.join` as the scripts use it (plain two-component join). -/
def joinPath (d f : String) : String := d ++ "/" ++ f

/-- Python truthiness test on an optional string: `None` and `""` are falsy.
(`if not full_song_fingerprint or not sample_fingerprint`, working.py
line 282.) -/
def pyFalsy : Option String → Bool
  | none => true
  | some s => s == ""

/-! ### SimilarityScorer (working.py lines 36-52, main3.py lines 39-55) -/

/-- The number of positions `i < min (length a) (length b)` where `a` and `b`
hold the same character — the value of working.py line 51,
`sum(1 for i in range(min_length) if hash1[i] == hash2[i])`. -/
def matchCount : List Char → List Char → Nat
  | [], _ => 0
  | _ :: _, [] => 0
  | x :: xs, y :: ys => (if x = y then 1 else 0) + matchCount xs ys

/-- working.py lines 36-52, `calculate_percentage_match(hash1, hash2)`:
`0.0` when either string is empty (Python falsiness of `str`), otherwise the
per-character match count over the first `min` positions, divided by that
minimum length, times 100. -/
def calculate_percentage_match (hash1 hash2 : String) : ℚ :=
  if hash1.toList = [] ∨ hash2.toList = [] then 0
  else (matchCount hash1.toList hash2.toList : ℚ)
    / ((min hash1.toList.length hash2.toList.length : Nat) : ℚ) * 100

/-- working.py lines 310-311: the orchestrator first truncates the full-track
fingerprint to the sample fingerprint's length
(`full_song_fingerprint[:len(sample_fingerprint)]`) and then scores. -/
def pipelineScore (full samp : String) : ℚ :=
  calculate_percentage_match (String.mk (full.toList.take samp.toList.length)) samp

/-- The similarity score exactly as the specification words it: `0` when either
string is empty, otherwise the number of indices `i < min (len a) (len b)`
where the characters at index `i` agree, divided by that minimum length,
times 100. -/
def refScore (a b : String) : ℚ :=
  if a = "" ∨ b = "" then 0
  else
    (((Finset.range (min a.toList.length b.toList.length)).filter
        (fun i => a.toList.getD i ' ' = b.toList.getD i ' ')).card : ℚ)
      / ((min a.toList.length b.toList.length : Nat) : ℚ) * 100

/-! ### FingerprintExtractor (working.py lines 6-34)

`calculate_fingerprint` spawns `fpcalc <file> -raw` and scans the captured
standard output.  Its pure core — from a list of stdout lines to the returned
value — is `extractFingerprint` below; the process-level wrapper (missing
binary ⇒ `sys.exit(1)`) is modelled inside `process_audio_file` further down. -/

/-- The marker scanned for on each stdout line (working.py line 27). -/
def fingerprintMarker : List Char := "FINGERPRINT=".toList

/-- working.py lines 26-29: the first stdout line containing `FINGERPRINT=`
is split on `"="` and component `[1]`, stripped, is returned; `none` (Python
`None`) when no line contains the marker.  (Python's `line.split("=")[1]`
would raise on a line with no `=`, but every line containing the marker
contains one, so `getD 1 []` agrees with it on all reachable inputs.) -/
def extractFingerprint (lines : List String) : Option String :=
  match lines.find? (fun l => subMatch fingerprintMarker l.toList) with
  | some l => some (String.mk (pyStrip ((splitOnChar '=' l.toList).getD 1 [])))
  | none => none

/-- The segment of a line strictly between its first `=` and its second `=`
(to the end of the line when there is no second `=`). -/
def betweenFirstEqs (cs : List Char) : List Char :=
  ((cs.dropWhile (fun c => c ≠ '=')).drop 1).takeWhile (fun c => c ≠ '=')

/-! ### Catalog (working.py lines 54-214)

The SQLite state is three append-only tables.  `AUTOINCREMENT` primary keys
on an append-only database assign ids 1, 2, …, so `cursor.lastrowid` after a
successful insert is the new table length.  Each insert function takes a
boolean `ioError` oracle standing for an environmental `sqlite3.Error`
(connect/execute/commit failure); the `except sqlite3.Error` handler rolls
back, so the state is unchanged on error.  Return values mirror Python:
`insert_song_data` and `insert_sample_data` return an `Int`
(`cursor.lastrowid`, or `-1` from the handler); `insert_fingerprint_data`
has no `return` statement at all, so it returns Python `None` on every
path — modelled as `(none : Option Int)`. -/

structure SongRow where
  song_id : Int
  song_title : String
  artist_name : String
  album_title : String
  release_date : Option String
  duration : Int
  isrc : Option String
  mbid : Option String
deriving DecidableEq

structure SampleRow where
  sample_id : Int
  song_id : Int
  sample_path : String
  sample_duration : Int
deriving DecidableEq

structure FingerprintRow where
  fingerprint_id : Int
  sample_id : Int
  fingerprint : String
deriving DecidableEq

structure DB where
  songs : List SongRow
  samples : List SampleRow
  fingerprints : List FingerprintRow
deriving DecidableEq

/-- Number of `?` parameter markers in a SQL text. -/
def qmarkCount (sql : String) : Nat := sql.toList.countP (fun c => c = '?')

/-- The column list of the songs INSERT, working.py line 136. -/
def songsInsertColumns : List String :=
  ["song_title", "artist_name", "album_title", "release_date",
   "duration", "isrc", "mbid"]

/-- The VALUES clause of the songs INSERT, verbatim from working.py line 137
(and identically main3.py line 140). -/
def songsInsertValuesClause : String := "VALUES (?, ?, ?, ?, ?, ?, ?, ?)"

/-- SQLite accepts an INSERT only when the VALUES list is as long as the
column list; otherwise preparing the statement raises
`sqlite3.OperationalError` ("8 values for 7 columns"), a subclass of the
caught `sqlite3.Error`.  For the songs INSERT this check fails: the
statement lists 7 columns but 8 `?` markers. -/
def songsInsertOk : Bool :=
  qmarkCount songsInsertValuesClause == songsInsertColumns.length

/-- The samples INSERT (working.py lines 171-174): 3 columns, 3 markers. -/
def samplesInsertOk : Bool :=
  qmarkCount "VALUES (?, ?, ?)" == ["song_id", "sample_path", "sample_duration"].length

/-- The fingerprints INSERT (working.py lines 202-205): 2 columns, 2 markers. -/
def fingerprintsInsertOk : Bool :=
  qmarkCount "VALUES (?, ?)" == ["sample_id", "fingerprint"].length

/-- working.py lines 113-150, `insert_song_data`: returns the new row's
`song_id` on success, `-1` when `sqlite3.Error` is caught (either an
environmental error, or the statement itself being rejected). -/
def insert_song_data (db : DB) (ioError : Bool)
    (song_title artist_name album_title : String) (release_date : Option String)
    (duration : Int) (isrc mbid : Option String) : Int × DB :=
  if ioError then (-1, db)
  else if songsInsertOk then
    let sid : Int := (db.songs.length : Int) + 1
    (sid, { db with songs := db.songs ++
      [⟨sid, song_title, artist_name, album_title, release_date, duration, isrc, mbid⟩] })
  else (-1, db)

/-- working.py lines 153-185, `insert_sample_data`: returns the new row's
`sample_id` on success, `-1` on a caught `sqlite3.Error`. -/
def insert_sample_data (db : DB) (ioError : Bool)
    (song_id : Int) (sample_path : String) (sample_duration : Int) : Int × DB :=
  if ioError then (-1, db)
  else if samplesInsertOk then
    let sid : Int := (db.samples.length : Int) + 1
    (sid, { db with samples := db.samples ++ [⟨sid, song_id, sample_path, sample_duration⟩] })
  else (-1, db)

/-- working.py lines 188-214, `insert_fingerprint_data`: inserts the row (or
rolls back on a caught `sqlite3.Error`) and falls off the end of the
function — Python returns `None` on every path, success or failure. -/
def insert_fingerprint_data (db : DB) (ioError : Bool)
    (sample_id : Int) (fingerprint : String) : Option Int × DB :=
  if ioError then (none, db)
  else if fingerprintsInsertOk then
    (none, { db with fingerprints := db.fingerprints ++
      [⟨(db.fingerprints.length : Int) + 1, sample_id, fingerprint⟩] })
  else (none, db)

/-! ### PipelineOrchestrator (working.py lines 217-312)

`process_audio_file` is deterministic given the outcomes of its external
interactions, which a `ToolEnv` records: whether the ffmpeg / fpcalc binaries
are present (`FileNotFoundError` from `subprocess.run`), whether the two
ffmpeg invocations exit non-zero (`CalledProcessError`), the captured fpcalc
stdout for the input file and for the generated sample, and the sqlite
error oracles for the three inserts.  The result is the terminal outcome
(`sys.exit` is a `fatal` outcome that `processFiles` below turns into
process termination), the database state, and the trace of insert calls
actually made, with their arguments. -/

structure ToolEnv where
  ffmpegMissing : Bool
  convertFails : Bool
  sampleFails : Bool
  fpcalcMissing : Bool
  fullLines : List String
  sampleLines : List String
  songIoError : Bool
  sampleIoError : Bool
  fpIoError : Bool
deriving DecidableEq

inductive FileOutcome
  | fatal (code : Nat)
  | convFailed
  | sampleFailed
  | fpMissing
  | songInsertFailed
  | sampleInsertFailed
  | completed (score : ℚ)
deriving DecidableEq

/-- An insert call made by the orchestrator, with the arguments passed. -/
inductive InsAttempt
  | song (title artist album : String) (rel : Option String) (dur : Int)
      (isrc mbid : Option String)
  | sample (songId : Int) (path : String) (dur : Int)
  | fp (sampleId : Int) (value : String)
deriving DecidableEq

def isSongAtt : InsAttempt → Bool
  | .song .. => true
  | _ => false

def isFatal : FileOutcome → Bool
  | .fatal _ => true
  | _ => false

/-- working.py lines 217-312, `process_audio_file(db_path, input_file,
output_folder, sample_duration)`:
1. convert to WAV unless the name already ends in `.wav` (missing ffmpeg ⇒
   `sys.exit(1)`; non-zero exit ⇒ return);
2. cut a `sample_duration`-second sample with ffmpeg (same failure policy);
3. fingerprint the original input file and the sample with fpcalc (missing
   fpcalc ⇒ `sys.exit(1)` inside `calculate_fingerprint`); if either
   fingerprint is falsy, return without touching the database;
4. insert the Song (metadata derived from the file name, `duration`
   set to `sample_duration`), then the Sample with the returned song id,
   then the Fingerprint with the returned sample id, stopping at the first
   insert that reports `-1`;
5. print the percentage match of the truncated full fingerprint against the
   sample fingerprint. -/
def process_audio_file (env : ToolEnv) (db : DB) (input_file output_folder : String)
    (sample_duration : Int) : FileOutcome × DB × List InsAttempt :=
  let isWav := endsWithChars (lowerChars input_file.toList) ".wav".toList
  if !isWav && env.ffmpegMissing then (.fatal 1, db, [])
  else if !isWav && env.convertFails then (.convFailed, db, [])
  else
    let working_file := if isWav then input_file
      else joinPath output_folder
        (String.mk (stripExtChars (afterLastSlash input_file.toList)) ++ ".wav")
    if env.ffmpegMissing then (.fatal 1, db, [])
    else if env.sampleFails then (.sampleFailed, db, [])
    else
      let output_file := joinPath output_folder
        (String.mk (stripExtChars (afterLastSlash working_file.toList))
          ++ "_sample_" ++ toString sample_duration ++ "s.wav")
      if env.fpcalcMissing then (.fatal 1, db, [])
      else
        let full_song_fingerprint := extractFingerprint env.fullLines
        let sample_fingerprint := extractFingerprint env.sampleLines
        if pyFalsy full_song_fingerprint || pyFalsy sample_fingerprint then
          (.fpMissing, db, [])
        else
          let song_title := String.mk (stripExtChars (afterLastSlash input_file.toList))
          let a1 := InsAttempt.song song_title "Unknown Artist" "Unknown Album"
            none sample_duration none none
          let r1 := insert_song_data db env.songIoError song_title
            "Unknown Artist" "Unknown Album" none sample_duration none none
          if r1.1 = -1 then (.songInsertFailed, r1.2, [a1])
          else
            let a2 := InsAttempt.sample r1.1 output_file sample_duration
            let r2 := insert_sample_data r1.2 env.sampleIoError r1.1
              output_file sample_duration
            if r2.1 = -1 then (.sampleInsertFailed, r2.2, [a1, a2])
            else
              let sfp := sample_fingerprint.getD ""
              let a3 := InsAttempt.fp r2.1 sfp
              let r3 := insert_fingerprint_data r2.2 env.fpIoError r2.1 sfp
              (.completed (pipelineScore (full_song_fingerprint.getD "") sfp),
                r3.2, [a1, a2, a3])

/-! ### The batch loop (working.py lines 316-339) -/

inductive BatchResult
  | exited (code : Nat)
  | finished
deriving DecidableEq

/-- working.py line 336: `filename.lower().endswith(('.mp3', '.wav', '.flac',
'.ogg', '.aac'))`. -/
def supportedAudioName (filename : String) : Bool :=
  [".mp3", ".wav", ".flac", ".ogg", ".aac"].any
    (fun e => endsWithChars (lowerChars filename.toList) e.toList)

/-- A directory entry as the batch loop sees it, together with the external
environment its processing will encounter. -/
structure BatchFile where
  name : String
  isFile : Bool
  env : ToolEnv
deriving DecidableEq

/-- working.py lines 334-339: iterate the directory listing; process each
supported audio file (with the default `sample_duration=10`), skip the rest.
A `sys.exit` inside `process_audio_file` propagates and terminates the whole
run; any per-file outcome lets the loop continue. -/
def processFiles (input_folder output_folder : String) :
    List BatchFile → DB → BatchResult × DB
  | [], db => (.finished, db)
  | f :: rest, db =>
    if f.isFile && supportedAudioName f.name then
      match process_audio_file f.env db (joinPath input_folder f.name) output_folder 10 with
      | (.fatal c, db1, _) => (.exited c, db1)
      | (_, db1, _) => processFiles input_folder output_folder rest db1
    else processFiles input_folder output_folder rest db

/-! ### Concrete fixtures (used by witnesses and counterexamples) -/

/-- A fresh database, as `create_database` provisions it. -/
def dbEmpty : DB := ⟨[], [], []⟩

/-- Both external tools present and succeeding, fpcalc emitting a fingerprint
for the input file and for the sample, no environmental sqlite errors. -/
def envAllGood : ToolEnv :=
  ⟨false, false, false, false, ["FINGERPRINT=123"], ["FINGERPRINT=456"],
   false, false, false⟩

/-- The media tool (ffmpeg) binary absent; fpcalc present. -/
def envNoFfmpeg : ToolEnv :=
  ⟨true, false, false, false, ["FINGERPRINT=123"], ["FINGERPRINT=456"],
   false, false, false⟩

/-- The fingerprint tool (fpcalc) binary absent; ffmpeg present. -/
def envNoFpcalc : ToolEnv :=
  ⟨false, false, false, true, [], [], false, false, false⟩

/-- Tools present, but fpcalc produces no `FINGERPRINT=` line for the input
file. -/
def envNoMarker : ToolEnv :=
  ⟨false, false, false, false, ["Error: could not open file"],
   ["FINGERPRINT=456"], false, false, false⟩

/-! ## Lemmas -/

lemma matchCount_nil_right : ∀ a : List Char, matchCount a [] = 0 := by
  intro a; cases a <;> rfl

lemma matchCount_comm : ∀ a b : List Char, matchCount a b = matchCount b a := by
  intro a
  induction a with
  | nil => intro b; cases b <;> rfl
  | cons x xs ih =>
    intro b
    cases b with
    | nil => rfl
    | cons y ys =>
      show (if x = y then 1 else 0) + matchCount xs ys
          = (if y = x then 1 else 0) + matchCount ys xs
      rw [ih ys]
      congr 1
      by_cases h : x = y
      · simp [h]
      · rw [if_neg h, if_neg (fun hyx => h (Eq.symm hyx))]

lemma matchCount_le_min : ∀ a b : List Char,
    matchCount a b ≤ min a.length b.length := by
  intro a
  induction a with
  | nil => intro b; simp [matchCount]
  | cons x xs ih =>
    intro b
    cases b with
    | nil => simp [matchCount_nil_right]
    | cons y ys =>
      show (if x = y then 1 else 0) + matchCount xs ys ≤ _
      have h1 := ih ys
      have h2 : min (x :: xs).length (y :: ys).length
          = min xs.length ys.length + 1 := by
        simp [List.length_cons, Nat.succ_min_succ]
      rw [h2]
      by_cases h : x = y <;> simp [h] <;> omega

lemma matchCount_take_left : ∀ a b : List Char,
    matchCount (a.take b.length) b = matchCount a b := by
  intro a
  induction a with
  | nil => intro b; simp
  | cons x xs ih =>
    intro b
    cases b with
    | nil => simp [matchCount_nil_right]
    | cons y ys =>
      show matchCount (x :: xs.take ys.length) (y :: ys) = _
      show (if x = y then 1 else 0) + matchCount (xs.take ys.length) ys
          = (if x = y then 1 else 0) + matchCount xs ys
      rw [ih ys]

lemma cpm_comm : ∀ a b : String,
    calculate_percentage_match a b = calculate_percentage_match b a := by
  intro a b
  unfold calculate_percentage_match
  rw [matchCount_comm, Nat.min_comm]
  split_ifs <;> first | rfl | tauto

lemma cpm_take_left : ∀ full samp : String,
    calculate_percentage_match (String.mk (full.toList.take samp.toList.length)) samp
      = calculate_percentage_match full samp := by
  intro full samp
  unfold calculate_percentage_match
  have hdata : (String.mk (full.toList.take samp.toList.length)).toList
      = full.toList.take samp.toList.length := rfl
  rw [hdata, matchCount_take_left, List.length_take]
  have hmin : min (min samp.toList.length full.toList.length) samp.toList.length
      = min full.toList.length samp.toList.length := by omega
  rw [hmin]
  cases hf : full.toList with
  | nil => simp
  | cons x xs =>
    cases hs : samp.toList with
    | nil => simp
    | cons y ys => simp

lemma pipelineScore_comm : ∀ a b : String, pipelineScore a b = pipelineScore b a := by
  intro a b
  unfold pipelineScore
  rw [cpm_take_left, cpm_take_left, cpm_comm]

lemma matchCount_eq_card : ∀ a b : List Char,
    matchCount a b = ((Finset.range (min a.length b.length)).filter
      (fun i => a.getD i ' ' = b.getD i ' ')).card := by
  intro a
  induction a with
  | nil => intro b; simp [matchCount]
  | cons x xs ih =>
    intro b
    cases b with
    | nil => simp [matchCount_nil_right]
    | cons y ys =>
      have hmin : min (x :: xs).length (y :: ys).length
          = min xs.length ys.length + 1 := by
        simp [List.length_cons, Nat.succ_min_succ]
      rw [hmin, Finset.card_filter, Finset.sum_range_succ']
      show (if x = y then 1 else 0) + matchCount xs ys = _
      rw [ih ys, Finset.card_filter]
      have h0 : (x :: xs).getD 0 ' ' = x := rfl
      have hsucc : ∀ i : Nat,
          ((x :: xs).getD (i + 1) ' ' = (y :: ys).getD (i + 1) ' ')
            = (xs.getD i ' ' = ys.getD i ' ') := fun i => rfl
      simp only [h0, hsucc]
      show _ = (∑ i ∈ Finset.range (min xs.length ys.length),
          if xs.getD i ' ' = ys.getD i ' ' then 1 else 0)
        + (if x = y then 1 else 0)
      omega

lemma string_eq_empty_iff (a : String) : a = "" ↔ a.toList = [] := by
  constructor
  · intro h; rw [h]; rfl
  · intro h
    cases a with
    | mk data => cases h; rfl

lemma cpm_eq_refScore : ∀ a b : String,
    calculate_percentage_match a b = refScore a b := by
  intro a b
  unfold calculate_percentage_match refScore
  rw [matchCount_eq_card]
  by_cases h1 : a.toList = [] <;> by_cases h2 : b.toList = [] <;>
    simp [h1, h2, (string_eq_empty_iff a).mpr, (string_eq_empty_iff b).mpr,
      fun h => (string_eq_empty_iff a).not.mpr h,
      (string_eq_empty_iff a), (string_eq_empty_iff b)]

lemma cpm_nonneg : ∀ a b : String, 0 ≤ calculate_percentage_match a b := by
  intro a b
  unfold calculate_percentage_match
  split_ifs
  · norm_num
  · positivity

lemma cpm_le_hundred : ∀ a b : String, calculate_percentage_match a b ≤ 100 := by
  intro a b
  unfold calculate_percentage_match
  split_ifs with h
  · norm_num
  · push_neg at h
    obtain ⟨h1, h2⟩ := h
    have hlen : 0 < min a.toList.length b.toList.length := by
      rcases List.length_pos.mpr h1 with ha
      rcases List.length_pos.mpr h2 with hb
      omega
    have hle := matchCount_le_min a.toList b.toList
    have hq : (matchCount a.toList b.toList : ℚ)
        / ((min a.toList.length b.toList.length : Nat) : ℚ) ≤ 1 := by
      rw [div_le_one (by exact_mod_cast hlen)]
      exact_mod_cast hle
    calc (matchCount a.toList b.toList : ℚ)
          / ((min a.toList.length b.toList.length : Nat) : ℚ) * 100
        ≤ 1 * 100 := by
          apply mul_le_mul_of_nonneg_right hq; norm_num
      _ = 100 := by norm_num

lemma cpm_example_fifty : calculate_percentage_match "ABCDEF" "XXCD" = 50 := by
  unfold calculate_percentage_match
  rw [if_neg (by decide)]
  have hm : matchCount "ABCDEF".toList "XXCD".toList = 2 := by decide
  have hmin : min "ABCDEF".toList.length "XXCD".toList.length = 4 := by decide
  rw [hm, hmin]
  norm_num

lemma splitOnChar_ne_nil : ∀ (sep : Char) (cs : List Char),
    splitOnChar sep cs ≠ [] := by
  intro sep cs
  cases cs with
  | nil => simp [splitOnChar]
  | cons c rest =>
    unfold splitOnChar
    by_cases h : c = sep
    · simp [h]
    · simp only [if_neg h]
      cases splitOnChar sep rest <;> simp

lemma splitOnChar_head : ∀ (sep : Char) (cs : List Char),
    (splitOnChar sep cs).getD 0 [] = cs.takeWhile (fun c => c ≠ sep) := by
  intro sep cs
  induction cs with
  | nil => rfl
  | cons c rest ih =>
    unfold splitOnChar
    by_cases h : c = sep
    · simp [h, List.takeWhile_cons]
    · simp only [if_neg h]
      cases hr : splitOnChar sep rest with
      | nil => exact absurd hr (splitOnChar_ne_nil sep rest)
      | cons hd tl =>
        rw [hr] at ih
        simp only [List.getD_cons_zero] at ih ⊢
        rw [List.takeWhile_cons, if_pos (by simp [h]), ih]

lemma splitOnChar_second : ∀ (sep : Char) (cs : List Char),
    (splitOnChar sep cs).getD 1 []
      = ((cs.dropWhile (fun c => c ≠ sep)).drop 1).takeWhile (fun c => c ≠ sep) := by
  intro sep cs
  induction cs with
  | nil => rfl
  | cons c rest ih =>
    unfold splitOnChar
    by_cases h : c = sep
    · simp only [if_pos h, List.getD_cons_succ]
      rw [List.dropWhile_cons, if_neg (by simp [h])]
      simp only [List.drop_one, List.tail_cons]
      exact splitOnChar_head sep rest
    · simp only [if_neg h]
      cases hr : splitOnChar sep rest with
      | nil => exact absurd hr (splitOnChar_ne_nil sep rest)
      | cons hd tl =>
        rw [hr] at ih
        rw [List.dropWhile_cons, if_pos (by simp [h])]
        simpa using ih

lemma songsInsertOk_false : songsInsertOk = false := by decide

/-- The songs INSERT can never succeed: whatever the database state, the
arguments, and the environment, `insert_song_data` returns `-1` and leaves
the state unchanged. -/
lemma insert_song_data_always_fails :
    ∀ (db : DB) (io : Bool) (t a al : String) (r : Option String) (d : Int)
      (i m : Option String),
      insert_song_data db io t a al r d i m = (-1, db) := by
  intro db io t a al r d i m
  cases io with
  | true => rfl
  | false =>
    unfold insert_song_data
    rw [songsInsertOk_false]
    simp

/-- When every external step succeeds and both fingerprints are truthy, the
orchestrator reaches the persistence phase, where the Song insert — which
can never succeed — immediately aborts it: the run ends in
`songInsertFailed`, the database is unchanged, and the only insert attempted
is the Song insert with the title derived from the file name and `duration`
set to the requested sample duration. -/
lemma proc_reaches_song_insert (env : ToolEnv) (db : DB) (f o : String) (d : Int)
    (h1 : env.ffmpegMissing = false) (h2 : env.convertFails = false)
    (h3 : env.sampleFails = false) (h4 : env.fpcalcMissing = false)
    (hf : pyFalsy (extractFingerprint env.fullLines) = false)
    (hs : pyFalsy (extractFingerprint env.sampleLines) = false) :
    process_audio_file env db f o d
      = (.songInsertFailed, db,
         [InsAttempt.song (String.mk (stripExtChars (afterLastSlash f.toList)))
            "Unknown Artist" "Unknown Album" none d none none]) := by
  unfold process_audio_file
  simp [h1, h2, h3, h4, hf, hs, insert_song_data_always_fails]

/-- Exhaustive case analysis of one `process_audio_file` run: every possible
result leaves the database unchanged, with an insert trace that is empty or
the single failed Song attempt. -/
lemma proc_result : ∀ (env : ToolEnv) (db : DB) (f o : String) (d : Int),
    process_audio_file env db f o d = (.fatal 1, db, []) ∨
    process_audio_file env db f o d = (.convFailed, db, []) ∨
    process_audio_file env db f o d = (.sampleFailed, db, []) ∨
    process_audio_file env db f o d = (.fpMissing, db, []) ∨
    process_audio_file env db f o d = (.songInsertFailed, db,
      [InsAttempt.song (String.mk (stripExtChars (afterLastSlash f.toList)))
        "Unknown Artist" "Unknown Album" none d none none]) := by
  intro env db f o d
  unfold process_audio_file
  simp only [insert_song_data_always_fails]
  split_ifs <;> simp

lemma proc_not_fatal (env : ToolEnv) (db : DB) (f o : String) (d : Int)
    (h1 : env.ffmpegMissing = false) (h4 : env.fpcalcMissing = false) :
    isFatal (process_audio_file env db f o d).1 = false := by
  unfold process_audio_file
  simp only [h1, h4, insert_song_data_always_fails, Bool.and_false]
  split_ifs <;> simp_all [isFatal]

lemma proc_fpcalc_missing_fatal (env : ToolEnv) (db : DB) (f o : String) (d : Int)
    (h1 : env.ffmpegMissing = false) (h2 : env.convertFails = false)
    (h3 : env.sampleFails = false) (h4 : env.fpcalcMissing = true) :
    (process_audio_file env db f o d).1 = .fatal 1 := by
  unfold process_audio_file
  simp [h1, h2, h3, h4]

lemma proc_fp_missing (env : ToolEnv) (db : DB) (f o : String) (d : Int)
    (h1 : env.ffmpegMissing = false) (h2 : env.convertFails = false)
    (h3 : env.sampleFails = false) (h4 : env.fpcalcMissing = false)
    (h5 : (pyFalsy (extractFingerprint env.fullLines)
        || pyFalsy (extractFingerprint env.sampleLines)) = true) :
    process_audio_file env db f o d = (.fpMissing, db, []) := by
  unfold process_audio_file
  simp [h1, h2, h3, h4, h5]

/-- A file whose processing ends in a non-fatal per-file outcome with the
database unchanged does not affect the rest of the batch. -/
lemma processFiles_skip (i o : String) (bf : BatchFile) (rest : List BatchFile)
    (db : DB)
    (h : process_audio_file bf.env db (joinPath i bf.name) o 10
        = (.fpMissing, db, [])) :
    processFiles i o (bf :: rest) db = processFiles i o rest db := by
  simp only [processFiles]
  by_cases hc : (bf.isFile && supportedAudioName bf.name) = true
  · rw [if_pos hc, h]
  · rw [if_neg hc]

/-! ## Claim theorems -/

/-- C2: `calculate_percentage_match` equals the reference definition: 0 when
either fingerprint string is empty, otherwise the number of indices
`i < min (len a) (len b)` with `a[i] == b[i]`, divided by that minimum
length, times 100; in particular the score of `"ABCDEF"` against `"XXCD"`
is 50, and the score always lies in `[0, 100]`. -/
theorem c2_score_matches_reference :
    (∀ a b : String, calculate_percentage_match a b = refScore a b) ∧
    calculate_percentage_match "ABCDEF" "XXCD" = 50 ∧
    (∀ a b : String,
      0 ≤ calculate_percentage_match a b ∧ calculate_percentage_match a b ≤ 100) :=
  ⟨cpm_eq_refScore, cpm_example_fifty,
    fun a b => ⟨cpm_nonneg a b, cpm_le_hundred a b⟩⟩

/-- C3, counterexample to the claim as stated: there is **no** pair of
fingerprint strings on which the pipeline's score (truncate the first
argument to the second's length, then per-character match rate) differs
between the two argument orders — the scoring is symmetric, because it
only ever compares the first `min (len a) (len b)` positions. -/
theorem c3_counterexample :
    ¬ ∃ a b : String, pipelineScore a b ≠ pipelineScore b a := by
  rintro ⟨a, b, h⟩
  exact h (pipelineScore_comm a b)

/-- C3, amended: the pipeline's scoring is symmetric — for all fingerprint
strings `a`, `b`, truncating the first argument to the second's length and
taking the per-character match rate yields the same value in either
argument order. -/
theorem c3_score_is_symmetric :
    ∀ a b : String, pipelineScore a b = pipelineScore b a :=
  pipelineScore_comm

/-- C4, counterexample to the claim as stated: on the stdout line
`FINGERPRINT=a=b` (marker present, value containing a further `=`), the
extractor returns `"a"` — `line.split("=")[1]` — not the entire substring
`"a=b"` after the marker that the claim promises. -/
theorem c4_counterexample :
    extractFingerprint ["FINGERPRINT=a=b"] = some "a" ∧
    extractFingerprint ["FINGERPRINT=a=b"] ≠ some "a=b" := by
  constructor
  · decide
  · decide

/-- C4, amended: for every stdout text of the fingerprint tool, if some line
contains `FINGERPRINT=`, the extractor returns, for the first such line, the
segment strictly between the line's first `=` and its second `=` (to the end
of the line when there is no second `=`), trimmed of surrounding whitespace —
this coincides with "everything after the marker" exactly when the line's
first `=` is the marker's and the value contains no further `=`.  If no line
contains the marker the extractor returns `none` (Python `None`), not an
exception. -/
theorem c4_extractor_behavior :
    (∀ lines : List String,
      extractFingerprint lines
        = (lines.find? (fun l => subMatch fingerprintMarker l.toList)).map
            (fun l => String.mk (pyStrip (betweenFirstEqs l.toList)))) ∧
    (∀ lines : List String,
      (∀ l ∈ lines, subMatch fingerprintMarker l.toList = false) →
      extractFingerprint lines = none) := by
  constructor
  · intro lines
    unfold extractFingerprint
    cases hf : lines.find? (fun l => subMatch fingerprintMarker l.toList) with
    | none => rfl
    | some l =>
      simp only [Option.map_some']
      rw [splitOnChar_second]
      rfl
  · intro lines h
    unfold extractFingerprint
    rw [List.find?_eq_none.mpr (fun l hl => by
      have := h l hl
      simp only [this, Bool.false_eq_true, not_false_eq_true])]

/-- C4 witness: on concrete fpcalc output with no `FINGERPRINT=` line, the
extractor returns `none`. -/
theorem c4_extractor_behavior_witness :
    extractFingerprint ["DURATION=5"] = none :=
  c4_extractor_behavior.2 ["DURATION=5"] (by decide)

/-- C5, counterexample to the claim as stated: a fingerprint insert that
fails (environmental `sqlite3.Error`) returns exactly the same value to the
caller — Python `None` — as one that succeeds, even though the two leave
different database states; so a fingerprint-insert failure **is** silently
swallowed from the caller's point of view. -/
theorem c5_counterexample :
    (insert_fingerprint_data ⟨[], [], []⟩ true 1 "123").1
      = (insert_fingerprint_data ⟨[], [], []⟩ false 1 "123").1 ∧
    (insert_fingerprint_data ⟨[], [], []⟩ true 1 "123").2
      ≠ (insert_fingerprint_data ⟨[], [], []⟩ false 1 "123").2 := by
  constructor
  · decide
  · decide

/-- C5, amended: `insert_sample_data` reports its outcome — the assigned
`sample_id` (never `-1`) on success, `-1` on error; `insert_song_data`
reports `-1` on error (in this code it has no reachable success — see C1);
but `insert_fingerprint_data` returns `None` on success **and** on error, so
a fingerprint-insert failure is not distinguishable by the caller from a
success via the return value — it is only logged. -/
theorem c5_insert_reporting :
    (∀ (db : DB) (sid : Int) (p : String) (d : Int),
      (insert_sample_data db false sid p d).1 = (db.samples.length : Int) + 1 ∧
      (insert_sample_data db false sid p d).1 ≠ -1 ∧
      (insert_sample_data db true sid p d).1 = -1) ∧
    (∀ (db : DB) (t a al : String) (r : Option String) (d : Int)
        (i m : Option String),
      (insert_song_data db true t a al r d i m).1 = -1) ∧
    (∀ (db : DB) (io : Bool) (sid : Int) (fp : String),
      (insert_fingerprint_data db io sid fp).1 = none) := by
  refine ⟨fun db sid p d => ⟨rfl, ?_, rfl⟩, fun db t a al r d i m => rfl, ?_⟩
  · show ((db.samples.length : Int) + 1) ≠ -1
    omega
  · intro db io sid fp
    cases io with
    | true => rfl
    | false => rfl

/-- C9: pre-truncating the first argument to the second's length is a no-op
for the scorer — `calculate_percentage_match(full[:len(sample)], sample)`
equals `calculate_percentage_match(full, sample)` — so the orchestrator's
explicit truncation at working.py line 310 never changes the reported
percentage: the pipeline's score is just the scorer applied to the two
untruncated fingerprints. -/
theorem c9_truncation_is_noop :
    (∀ full samp : String,
      calculate_percentage_match
        (String.mk (full.toList.take samp.toList.length)) samp
        = calculate_percentage_match full samp) ∧
    (∀ full samp : String,
      pipelineScore full samp = calculate_percentage_match full samp) :=
  ⟨cpm_take_left, fun full samp => cpm_take_left full samp⟩

/-- C1 (code bug): for a source file that is successfully converted, sampled
and fingerprinted (both fingerprints truthy) and with no environmental
database errors, one run of `process_audio_file` persists **nothing**: the
songs INSERT statement lists 7 columns but 8 `?` placeholders, so SQLite
rejects it, `insert_song_data` returns `-1`, and the pipeline aborts before
any row is written — instead of the one Song, one Sample and one Fingerprint
row the claim (and the code's own docstrings) promise. -/
theorem c1_successful_file_persists_no_rows (env : ToolEnv) (db : DB)
    (f o : String) (d : Int)
    (h1 : env.ffmpegMissing = false) (h2 : env.convertFails = false)
    (h3 : env.sampleFails = false) (h4 : env.fpcalcMissing = false)
    (hf : pyFalsy (extractFingerprint env.fullLines) = false)
    (hs : pyFalsy (extractFingerprint env.sampleLines) = false) :
    (process_audio_file env db f o d).1 = .songInsertFailed ∧
    (process_audio_file env db f o d).2.1 = db := by
  rw [proc_reaches_song_insert env db f o d h1 h2 h3 h4 hf hs]
  exact ⟨rfl, rfl⟩

/-- C1 witness: a concrete fully-successful run (`song.wav`, fingerprints
extracted for track and sample) ends in `songInsertFailed` with the database
still empty. -/
theorem c1_successful_file_persists_no_rows_witness :
    (process_audio_file envAllGood dbEmpty "song.wav" "out" 10).1
      = FileOutcome.songInsertFailed ∧
    (process_audio_file envAllGood dbEmpty "song.wav" "out" 10).2.1 = dbEmpty :=
  c1_successful_file_persists_no_rows envAllGood dbEmpty "song.wav" "out" 10
    rfl rfl rfl rfl (by decide) (by decide)

/-- C6, counterexample to the claim as stated: a missing fingerprint tool is
**not** the only condition that terminates the process.  With fpcalc present
but the media tool (ffmpeg) binary missing, processing `a.wav` hits
`sys.exit(1)` in the sample-creation step, terminating the whole run — the
second file of the batch is never processed. -/
theorem c6_counterexample :
    processFiles "in" "out"
      [⟨"a.wav", true, envNoFfmpeg⟩, ⟨"b.wav", true, envAllGood⟩] dbEmpty
      = (.exited 1, dbEmpty) ∧
    envNoFfmpeg.fpcalcMissing = false := by
  constructor
  · decide
  · rfl

/-- C6, amended: a missing external tool binary — the fingerprint tool *or*
the media tool — terminates the run via `sys.exit(1)`, and these are the
only terminating conditions: when both binaries are present
`process_audio_file` never exits fatally, whatever fpcalc prints (any other
fingerprint-extraction failure is a recoverable per-file outcome); and when
the fingerprint tool is missing, a run that reaches the fingerprinting step
is fatal. -/
theorem c6_only_missing_tools_are_fatal :
    (∀ (env : ToolEnv) (db : DB) (f o : String) (d : Int),
      env.ffmpegMissing = false → env.fpcalcMissing = false →
      isFatal (process_audio_file env db f o d).1 = false) ∧
    (∀ (env : ToolEnv) (db : DB) (f o : String) (d : Int),
      env.ffmpegMissing = false → env.convertFails = false →
      env.sampleFails = false → env.fpcalcMissing = true →
      (process_audio_file env db f o d).1 = .fatal 1) :=
  ⟨fun env db f o d h1 h4 => proc_not_fatal env db f o d h1 h4,
   fun env db f o d h1 h2 h3 h4 => proc_fpcalc_missing_fatal env db f o d h1 h2 h3 h4⟩

/-- C6 witness: with both tools present a run is not fatal; with fpcalc
missing (ffmpeg present, both ffmpeg steps succeeding) it exits with code 1. -/
theorem c6_only_missing_tools_are_fatal_witness :
    isFatal (process_audio_file envAllGood dbEmpty "song.wav" "out" 10).1 = false ∧
    (process_audio_file envNoFpcalc dbEmpty "song.wav" "out" 10).1
      = FileOutcome.fatal 1 :=
  ⟨c6_only_missing_tools_are_fatal.1 envAllGood dbEmpty "song.wav" "out" 10 rfl rfl,
   c6_only_missing_tools_are_fatal.2 envNoFpcalc dbEmpty "song.wav" "out" 10
     rfl rfl rfl rfl⟩

/-- C7: when fingerprint extraction yields no `FINGERPRINT=` line for the
full track or for the sample (the extractor returns `None`), the pipeline
writes zero rows to every table for that file — it returns before any insert
is attempted (empty insert trace, database unchanged) — and the batch loop
continues with the remaining files exactly as if the file had not been
there. -/
theorem c7_no_marker_writes_nothing_batch_continues (env : ToolEnv) (db : DB)
    (i o name : String) (isf : Bool) (rest : List BatchFile)
    (h1 : env.ffmpegMissing = false) (h2 : env.convertFails = false)
    (h3 : env.sampleFails = false) (h4 : env.fpcalcMissing = false)
    (h5 : extractFingerprint env.fullLines = none ∨
          extractFingerprint env.sampleLines = none) :
    process_audio_file env db (joinPath i name) o 10 = (.fpMissing, db, []) ∧
    processFiles i o (⟨name, isf, env⟩ :: rest) db = processFiles i o rest db := by
  have hb : (pyFalsy (extractFingerprint env.fullLines)
      || pyFalsy (extractFingerprint env.sampleLines)) = true := by
    rcases h5 with h | h <;> rw [h] <;> simp [pyFalsy]
  have hp := proc_fp_missing env db (joinPath i name) o 10 h1 h2 h3 h4 hb
  exact ⟨hp, processFiles_skip i o ⟨name, isf, env⟩ rest db hp⟩

/-- C7 witness: a concrete file whose fpcalc output has no `FINGERPRINT=`
line is skipped with the database untouched, and the batch result is
that of the remaining (empty) list. -/
theorem c7_no_marker_writes_nothing_batch_continues_witness :
    process_audio_file envNoMarker dbEmpty (joinPath "in" "b.mp3") "out" 10
      = (.fpMissing, dbEmpty, []) ∧
    processFiles "in" "out" [⟨"b.mp3", true, envNoMarker⟩] dbEmpty
      = processFiles "in" "out" [] dbEmpty :=
  c7_no_marker_writes_nothing_batch_continues envNoMarker dbEmpty "in" "out"
    "b.mp3" true [] rfl rfl rfl rfl (Or.inl (by decide))

/-- C8 (code bug): in every run of `process_audio_file` — whatever the
environment, database state, file and requested duration — the only insert
ever attempted is the Song insert (the trace contains no Sample and no
Fingerprint attempt) and the database is left unchanged.  The claimed
Song → Sample → Fingerprint sequence is never realised, because the Song
insert (7 columns, 8 placeholders) always fails and the orchestrator then
skips the remaining inserts; in particular a "Sample-insert failure after a
successful Song insert" is unreachable. -/
theorem c8_persistence_never_proceeds_past_song :
    ∀ (env : ToolEnv) (db : DB) (f o : String) (d : Int),
      ((process_audio_file env db f o d).2.2).all isSongAtt = true ∧
      (process_audio_file env db f o d).2.1 = db := by
  intro env db f o d
  rcases proc_result env db f o d with h | h | h | h | h <;> rw [h] <;> exact ⟨rfl, rfl⟩

/-- C10, counterexample to the claim as stated: after a fully successful
run over a fresh database (both fingerprints extracted), the songs table is
empty — no Song record is stored at all, so no stored duration value exists,
let alone one equal to the requested sample duration. -/
theorem c10_counterexample :
    pyFalsy (extractFingerprint envAllGood.fullLines) = false ∧
    pyFalsy (extractFingerprint envAllGood.sampleLines) = false ∧
    ((process_audio_file envAllGood dbEmpty "song.wav" "out" 10).2.1).songs = [] := by
  refine ⟨by decide, by decide, ?_⟩
  decide

/-- C10, amended: for every file that reaches the persistence phase, the
duration value the pipeline *supplies* for the Song record equals the
requested sample duration `d` (default 10) — the code sets
`duration = sample_duration` and never reads the source track's length —
but no Song row is actually stored (the insert fails, see C1), and the
Sample insert, which would receive the same `d` as `sample_duration`, is
never attempted. -/
theorem c10_supplied_duration_is_sample_duration (env : ToolEnv) (db : DB)
    (f o : String) (d : Int)
    (h1 : env.ffmpegMissing = false) (h2 : env.convertFails = false)
    (h3 : env.sampleFails = false) (h4 : env.fpcalcMissing = false)
    (hf : pyFalsy (extractFingerprint env.fullLines) = false)
    (hs : pyFalsy (extractFingerprint env.sampleLines) = false) :
    (process_audio_file env db f o d).2.2
      = [InsAttempt.song (String.mk (stripExtChars (afterLastSlash f.toList)))
          "Unknown Artist" "Unknown Album" none d none none] := by
  rw [proc_reaches_song_insert env db f o d h1 h2 h3 h4 hf hs]

/-- C10 witness: the concrete successful run attempts exactly one Song
insert, carrying duration 10 — the requested sample duration. -/
theorem c10_supplied_duration_is_sample_duration_witness :
    (process_audio_file envAllGood dbEmpty "song.wav" "out" 10).2.2
      = [InsAttempt.song
          (String.mk (stripExtChars (afterLastSlash "song.wav".toList)))
          "Unknown Artist" "Unknown Album" none 10 none none] :=
  c10_supplied_duration_is_sample_duration envAllGood dbEmpty "song.wav" "out" 10
    rfl rfl rfl rfl (by decide) (by decide)

end TuneTrack
